import Mathlib

/-!
Verification of the book-scanner detection-to-structured-record pipeline.

Shallow embedding of the core algorithmic code:
  * `backend/book_detector/book_detector.py` — response parsing/validation and
    region geometry,
  * `backend/services/book_categorizer.py` — genre categorization and mapping,
  * `backend/services/book_metadata.py` — two-source metadata merge,
  * `backend/api/analyze.py` — preference-matching filter and scoring.

Python strings are modelled as Lean `String`s; the Python string operations
used by the code (`strip`, `lower`, `split`, `replace`, substring test `in`,
`startswith`, `endswith`) are re-implemented over `List Char` so that every
definition reduces in the kernel.  Machine floats appear only as the
preference-match score and the average-rating rounding; both are modelled with
`ℚ` (the numbers involved are small enough that the float computations in the
code are exact except for rating rounding, which is modelled with `round`).
-/

/-! ## String utilities (Python `str` operations over `List Char`) -/

/-- Python's substring test `pat in hay` on character lists. -/
def listContains : List Char → List Char → Bool
  | [], pat => pat.isEmpty
  | c :: t, pat => pat.isPrefixOf (c :: t) || listContains t pat

/-- Python's `pat in hay` for strings. -/
def strContains (hay pat : String) : Bool := listContains hay.data pat.data

/-- Python's `str.lower()` (ASCII case folding, which is all the code's
string constants need). -/
def lowerStr (s : String) : String := ⟨s.data.map Char.toLower⟩

/-- Whitespace recognised by Python's `str.strip()` (the characters that can
occur in the strings handled here). -/
def isWs (c : Char) : Bool := c = ' ' || c = '\t' || c = '\n' || c = '\r'

/-- Python's `str.strip()` on a character list. -/
def trimList (l : List Char) : List Char :=
  ((l.dropWhile isWs).reverse.dropWhile isWs).reverse

/-- Python's `str.strip()`. -/
def trimStr (s : String) : String := ⟨trimList s.data⟩

/-- Python's `str.startswith(pat)`. -/
def strStartsWith (s pat : String) : Bool := pat.data.isPrefixOf s.data

/-- Python's `str.endswith(pat)`. -/
def strEndsWith (s pat : String) : Bool := pat.data.reverse.isPrefixOf s.data.reverse

/-- Removal of every (non-overlapping, left-to-right) occurrence of `pat`,
with enough fuel to traverse the list; this is Python's
`hay.replace(pat, '')`. -/
def removeOccsAux (pat : List Char) : Nat → List Char → List Char
  | 0, _ => []
  | _, [] => []
  | fuel + 1, c :: t =>
    if pat ≠ [] ∧ pat.isPrefixOf (c :: t) then
      removeOccsAux pat fuel (t.drop (pat.length - 1))
    else c :: removeOccsAux pat fuel t

/-- Python's `s.replace(pat, '')`. -/
def strRemove (s pat : String) : String := ⟨removeOccsAux pat.data s.data.length s.data⟩

/-- Split a character list on a separator character; Python's
`s.split(sep)` for a one-character separator (`''.split(sep) == ['']`). -/
def splitOnChar (sep : Char) : List Char → List (List Char)
  | [] => [[]]
  | c :: t =>
    if c = sep then [] :: splitOnChar sep t
    else
      match splitOnChar sep t with
      | [] => [[c]]
      | h :: r => (c :: h) :: r

/-- Python's `s.split(sep)` for a one-character separator. -/
def strSplit (s : String) (sep : Char) : List String :=
  (splitOnChar sep s.data).map String.mk

/-- Python's `str.strip('[]')`: remove every leading and trailing `[` or `]`. -/
def stripBrackets (s : String) : String :=
  ⟨((s.data.dropWhile fun c => c = '[' || c = ']').reverse.dropWhile
      (fun c => c = '[' || c = ']')).reverse⟩

/-- Python's `', '.join l`. -/
def joinCommaSep (l : List String) : String :=
  ⟨(List.intersperse (", ".data) (l.map String.data)).flatten⟩

/-! ## ResponseParser / Validator
(`BookSpineDetector._parse_openai_response` / `_validate_extraction`,
`backend/book_detector/book_detector.py` lines 552-664) -/

/-- The per-spine record built by `_parse_openai_response` (the `book_info`
dict). -/
structure BookInfo where
  title : String
  author : String
  genre : String
  primary_genre : String
  secondary_genre : String
  tertiary_genre : String
  spine_appearance : String
  reasoning : String
  uncertainty_notes : String
  isValid : Bool
deriving DecidableEq, Repr

/-- The initial `book_info` dict of `_parse_openai_response`. -/
def initBookInfo : BookInfo :=
  { title := "", author := "", genre := "", primary_genre := "",
    secondary_genre := "", tertiary_genre := "", spine_appearance := "",
    reasoning := "", uncertainty_notes := "", isValid := true }

/-- `high_risk_terms` of `_validate_extraction`. -/
def high_risk_terms : List String :=
  ["cannot determine", "unclear", "not visible", "multiple possibilities",
   "completely obscured", "low confidence", "uncertain", "ambiguous"]

/-- `placeholder_terms` of `_validate_extraction`. -/
def placeholder_terms : List String := ["unknown", "n/a", "not available", "unclear"]

/-- `BookSpineDetector._validate_extraction` (lines 623-664). -/
def validate_extraction (r : BookInfo) : Bool :=
  if strContains r.uncertainty_notes "Need Validation" then false
  else if high_risk_terms.any (fun t => strContains (lowerStr r.uncertainty_notes) t) then false
  else if r.reasoning.length < 20 then false
  else if trimStr r.title = "" then false
  else if trimStr r.genre = "" then false
  else if placeholder_terms.any (fun t => strContains (lowerStr r.title) t) then false
  else true

/-- One iteration of the line loop of `_parse_openai_response`
(lines 578-612).  Python's `line.replace('FIELD:', '')` removes every
occurrence of the prefix, hence `strRemove`. -/
def parseLine (b : BookInfo) (rawLine : String) : BookInfo :=
  let line := trimStr rawLine
  if strStartsWith line "TITLE:" then
    { b with title := trimStr (strRemove line "TITLE:") }
  else if strStartsWith line "AUTHOR:" then
    { b with author := trimStr (strRemove line "AUTHOR:") }
  else if strStartsWith line "GENRE:" then
    let genre_text := trimStr (strRemove line "GENRE:")
    if strStartsWith genre_text "[" && strEndsWith genre_text "]" then
      let genres := (strSplit (stripBrackets genre_text) ',').map trimStr
      { b with primary_genre := genres.getD 0 "",
               secondary_genre := genres.getD 1 "",
               tertiary_genre := genres.getD 2 "",
               genre := genres.getD 0 "" }
    else
      { b with primary_genre := genre_text, secondary_genre := "",
               tertiary_genre := "", genre := genre_text }
  else if strStartsWith line "SPINE_APPEARANCE:" then
    { b with spine_appearance := trimStr (strRemove line "SPINE_APPEARANCE:") }
  else if strStartsWith line "REASONING:" then
    { b with reasoning := trimStr (strRemove line "REASONING:") }
  else if strStartsWith line "UNCERTAINTY_NOTES:" then
    { b with uncertainty_notes := trimStr (strRemove line "UNCERTAINTY_NOTES:") }
  else b

/-- The line loop of `_parse_openai_response`. -/
def parseLines (lines : List String) (b : BookInfo) : BookInfo :=
  lines.foldl parseLine b

/-- Input to `_parse_openai_response`: either an actual response string, or an
input on which the parsing body raises (in the code this happens exactly when
`response_text` is not a `str`, e.g. `None`, in which case
`response_text.split('\n')` raises before any field is assigned; `msg` is
`str(e)` for the caught exception `e`). -/
inductive RawResponse where
  | ok (text : String)
  | exn (msg : String)
deriving DecidableEq, Repr

/-- `BookSpineDetector._parse_openai_response` (lines 552-621): parse on the
`ok` branch; on the `exn` branch record the exception into
`uncertainty_notes` and set `isValid := false` (lines 614-616).  In both
cases the final line re-derives `isValid` via `_validate_extraction`
(line 619). -/
def parse_openai_response (input : RawResponse) : BookInfo :=
  let b :=
    match input with
    | .ok text => parseLines (strSplit text '\n') initBookInfo
    | .exn msg =>
        { initBookInfo with
            uncertainty_notes := "Parsing error: " ++ msg, isValid := false }
  { b with isValid := validate_extraction b }

/-! ## Categorizer (`BookCategorizer`, `backend/services/book_categorizer.py`) -/

/-- `BookCategorizer.predefined_genres` (lines 51-55). -/
def predefined_genres : List String :=
  ["Fiction", "Non-Fiction", "Mystery", "Science Fiction",
   "Fantasy", "Romance", "Thriller", "Biography", "History",
   "Self-Help", "Business", "Technology", "Art", "Poetry", "Drama"]

/-- `BookCategorizer.genre_mapping` (lines 58-116), in dict insertion order
(Python dicts iterate in insertion order). -/
def genre_mapping : List (String × String) :=
  [("literary fiction", "Fiction"),
   ("contemporary fiction", "Fiction"),
   ("classic fiction", "Fiction"),
   ("general fiction", "Fiction"),
   ("fiction", "Fiction"),
   ("mystery", "Mystery"),
   ("detective", "Mystery"),
   ("crime", "Mystery"),
   ("thriller", "Thriller"),
   ("suspense", "Thriller"),
   ("psychological thriller", "Thriller"),
   ("science fiction", "Science Fiction"),
   ("sci-fi", "Science Fiction"),
   ("speculative fiction", "Science Fiction"),
   ("fantasy", "Fantasy"),
   ("urban fantasy", "Fantasy"),
   ("epic fantasy", "Fantasy"),
   ("high fantasy", "Fantasy"),
   ("romance", "Romance"),
   ("romantic fiction", "Romance"),
   ("contemporary romance", "Romance"),
   ("historical romance", "Romance"),
   ("non-fiction", "Non-Fiction"),
   ("nonfiction", "Non-Fiction"),
   ("biography", "Biography"),
   ("autobiography", "Biography"),
   ("memoir", "Biography"),
   ("history", "History"),
   ("historical", "History"),
   ("self-help", "Self-Help"),
   ("self help", "Self-Help"),
   ("personal development", "Self-Help"),
   ("business", "Business"),
   ("entrepreneurship", "Business"),
   ("management", "Business"),
   ("technology", "Technology"),
   ("programming", "Technology"),
   ("computer science", "Technology"),
   ("art", "Art"),
   ("art history", "Art"),
   ("design", "Art"),
   ("poetry", "Poetry"),
   ("poems", "Poetry"),
   ("verse", "Poetry"),
   ("drama", "Drama"),
   ("plays", "Drama"),
   ("theater", "Drama"),
   ("theatre", "Drama")]

/-- `BookCategorizer._validate_and_map_genre` (lines 237-262): clean the
response (`lower().strip()`), try a case-insensitive exact match against the
predefined list, then the first synonym-table key occurring in the cleaned
response as a substring, else default to `"Fiction"`. -/
def validate_and_map_genre (genre_response : String) : String :=
  match predefined_genres.find?
      (fun g => lowerStr g == trimStr (lowerStr genre_response)) with
  | some g => g
  | none =>
    match genre_mapping.find?
        (fun p => strContains (trimStr (lowerStr genre_response)) p.1) with
    | some p => p.2
    | none => "Fiction"

/-- `BookCategorizer._fallback_categorization` (lines 264-303): deterministic
keyword scan over the lower-cased title, in a fixed priority order. -/
def fallback_categorization (title : String) (author : String) : String :=
  let tl := lowerStr title
  if ["mystery", "murder", "detective", "crime"].any (fun w => strContains tl w) then "Mystery"
  else if ["love", "romance", "heart"].any (fun w => strContains tl w) then "Romance"
  else if ["space", "future", "robot", "alien", "sci-fi"].any (fun w => strContains tl w) then "Science Fiction"
  else if ["magic", "dragon", "fantasy", "wizard"].any (fun w => strContains tl w) then "Fantasy"
  else if ["history", "historical", "war", "battle"].any (fun w => strContains tl w) then "History"
  else if ["business", "management", "entrepreneur"].any (fun w => strContains tl w) then "Business"
  else if ["programming", "code", "software", "tech"].any (fun w => strContains tl w) then "Technology"
  else if ["self-help", "success", "motivation", "habits"].any (fun w => strContains tl w) then "Self-Help"
  else if ["biography", "life of", "memoir"].any (fun w => strContains tl w) then "Biography"
  else if ["poetry", "poems", "verse"].any (fun w => strContains tl w) then "Poetry"
  else if ["art", "painting", "design"].any (fun w => strContains tl w) then "Art"
  else if ["drama", "play", "theater"].any (fun w => strContains tl w) then "Drama"
  else "Fiction"

/-- Outcome of the remote classification call issued by
`_categorize_single_book` (lines 185-211): the extracted response content on
success, a response without the expected `choices`/`message` shape, or a
raised exception with message `msg`. -/
inductive RemoteOutcome where
  | ok (content : String)
  | badFormat
  | exn (msg : String)
deriving DecidableEq, Repr

/-- `BookCategorizer._categorize_single_book` (lines 152-235).  An empty
title short-circuits to `"Fiction"`.  A successful call is cleaned
(`.strip()`) and mapped; a malformed response shape yields `"Fiction"`;
an exception raised by the remote call is caught *inside* this function
(lines 218-235) and answered with the keyword fallback — it does not
propagate to the caller. -/
def categorize_single_book (title author : String) (remote : RemoteOutcome) : String :=
  if title = "" then "Fiction"
  else
    match remote with
    | .ok content => validate_and_map_genre (trimStr content)
    | .badFormat => "Fiction"
    | .exn _ => fallback_categorization title author

/-- A book as seen by the categorizer: just `title` and `author`. -/
structure BookTA where
  title : String
  author : String
deriving DecidableEq, Repr

/-- A book after `categorize_books`: the original data plus `genre`,
`genre_confidence` and the optional `genre_error` diagnostic key. -/
structure CategorizedBook where
  book : BookTA
  genre : String
  genre_confidence : String
  genre_error : Option String
deriving DecidableEq, Repr

/-- `BookCategorizer.categorize_books` (lines 118-150), for an initialized
client; `remote` gives the outcome of the remote classification call for each
book.  The per-book `try` only falls to its `except` branch (which would set
`genre_confidence := "low"` and `genre_error`) if `_categorize_single_book`
raises; since `_categorize_single_book` catches every exception of the remote
call internally and returns the keyword fallback instead, the success branch
(lines 136-140: `genre_confidence := "high"`, no error key) is always taken. -/
def categorize_books (books : List BookTA) (remote : BookTA → RemoteOutcome) :
    List CategorizedBook :=
  books.map (fun b =>
    { book := b,
      genre := categorize_single_book b.title b.author (remote b),
      genre_confidence := "high",
      genre_error := none })

/-! ## MetadataMerger (`BookMetadataService.get_book_metadata`,
`backend/services/book_metadata.py` lines 177-242) -/

/-- The dict returned by `search_google_books` (lines 45-113) when the lookup
succeeds.  `cover_url` is `some` exactly when the result dict has the
`cover_url` key (lines 92-100); `average_rating` is `some` exactly when the
dict has the `average_rating` key, in which case it also has `ratings_count`
(lines 103-105). -/
structure GoogleBooksResult where
  title : String
  authors : List String
  published_date : String
  description : String
  page_count : Nat
  categories : List String
  language : String
  isbn_10 : Option String
  isbn_13 : Option String
  google_books_id : String
  cover_url : Option String
  average_rating : Option ℚ
  ratings_count : Nat
deriving DecidableEq, Repr

/-- The dict returned by `search_open_library` (lines 115-175) when the
lookup succeeds.  `open_library_id` is the (possibly absent) `cover_i` value;
`cover_url` is `some` exactly when `cover_i` was truthy (lines 160-162). -/
structure OpenLibraryResult where
  title : String
  authors : List String
  published_date : String
  isbn_10 : Option String
  isbn_13 : Option String
  open_library_id : Option Nat
  subjects : List String
  cover_url : Option String
  average_rating : Option ℚ
  ratings_count : Nat
deriving DecidableEq, Repr

/-- The merged `metadata` dict of `get_book_metadata`.  The last three fields
model dict keys that only appear once a source overlays them (`none` = key
absent). -/
structure Metadata where
  title : String
  author : String
  cover_url : Option String
  average_rating : Option ℚ
  ratings_count : Nat
  description : String
  published_date : String
  page_count : Nat
  isbn_10 : Option String
  isbn_13 : Option String
  categories : List String
  subjects : List String
  language : String
  source : String
  authors : Option (List String)
  google_books_id : Option String
  open_library_id : Option (Option Nat)
deriving DecidableEq, Repr

/-- Python truthiness of an optional string-valued dict entry
(`None` and `''` are falsy). -/
def truthyOptStr : Option String → Bool
  | none => false
  | some s => s ≠ ""

/-- Python truthiness of an optional list-valued dict entry. -/
def truthyOptList : Option (List String) → Bool
  | none => false
  | some l => l ≠ []

/-- Python truthiness of an optional numeric dict entry (`None` and `0` are
falsy). -/
def truthyOptRat : Option ℚ → Bool
  | none => false
  | some q => q ≠ 0

/-- Python truthiness of the stored `open_library_id` entry: the key may be
absent (outer `none`), or hold `None` (inner `none`) or a number. -/
def truthyOptOptNat : Option (Option Nat) → Bool
  | none => false
  | some none => false
  | some (some n) => n ≠ 0

/-- The initializer of `get_book_metadata` (lines 191-206); the `author`
field is Python's `author or 'Unknown'`. -/
def initMetadata (title : String) (author : Option String) : Metadata :=
  { title := title,
    author := match author with
      | some a => if a = "" then "Unknown" else a
      | none => "Unknown",
    cover_url := none, average_rating := none, ratings_count := 0,
    description := "", published_date := "", page_count := 0,
    isbn_10 := none, isbn_13 := none, categories := [], subjects := [],
    language := "en", source := "unknown",
    authors := none, google_books_id := none, open_library_id := none }

/-- `metadata.update(google_data)` followed by `metadata['source'] =
'google_books'` (lines 209-212): every key present in the Google result
overwrites the output unconditionally; conditionally-present keys
(`cover_url`, `average_rating`/`ratings_count`) only overwrite when present. -/
def applyGoogle (m : Metadata) (g : GoogleBooksResult) : Metadata :=
  { m with
    title := g.title,
    authors := some g.authors,
    published_date := g.published_date,
    description := g.description,
    page_count := g.page_count,
    categories := g.categories,
    language := g.language,
    isbn_10 := g.isbn_10,
    isbn_13 := g.isbn_13,
    google_books_id := some g.google_books_id,
    cover_url := match g.cover_url with
      | some c => some c
      | none => m.cover_url,
    average_rating := match g.average_rating with
      | some r => some r
      | none => m.average_rating,
    ratings_count := match g.average_rating with
      | some _ => g.ratings_count
      | none => m.ratings_count,
    source := "google_books" }

/-- The gap-fill loop of the Open Library overlay (lines 217-220): each key
of the Open Library result is copied only when the output lacks the key or
holds a falsy value, in the result dict's insertion order. -/
def olFill (m : Metadata) (o : OpenLibraryResult) : Metadata :=
  { m with
    title := if m.title ≠ "" then m.title else o.title,
    authors := if truthyOptList m.authors then m.authors else some o.authors,
    published_date := if m.published_date ≠ "" then m.published_date else o.published_date,
    isbn_10 := if truthyOptStr m.isbn_10 then m.isbn_10 else o.isbn_10,
    isbn_13 := if truthyOptStr m.isbn_13 then m.isbn_13 else o.isbn_13,
    open_library_id := if truthyOptOptNat m.open_library_id then m.open_library_id
      else some o.open_library_id,
    subjects := if m.subjects ≠ [] then m.subjects else o.subjects,
    cover_url := match o.cover_url with
      | some c => if truthyOptStr m.cover_url then m.cover_url else some c
      | none => m.cover_url,
    average_rating := match o.average_rating with
      | some r => if truthyOptRat m.average_rating then m.average_rating else some r
      | none => m.average_rating,
    ratings_count := match o.average_rating with
      | some _ => if m.ratings_count ≠ 0 then m.ratings_count else o.ratings_count
      | none => m.ratings_count }

/-- The cover special case (lines 222-226): it runs on the state *after* the
gap-fill loop, so its guard reads the cover the loop may already have
filled. -/
def olCoverSpecial (m1 : Metadata) (o : OpenLibraryResult) : Metadata :=
  if !truthyOptStr m1.cover_url && truthyOptStr o.cover_url then
    { m1 with cover_url := o.cover_url, source := "open_library" }
  else m1

/-- The Open Library overlay (lines 215-226): the gap-fill loop, then the
cover special case. -/
def applyOpenLibrary (m : Metadata) (o : OpenLibraryResult) : Metadata :=
  olCoverSpecial (olFill m o) o

/-- Python's `round(x, 1)` on the small decimal ratings handled here,
modelled over `ℚ` (`round` to the nearest tenth). -/
def roundRating (x : ℚ) : ℚ := (round (x * 10) : ℤ) / 10

/-- Lines 228-229: if the `authors` key is present (it always holds a list
when present), join up to the first 3 entries into the scalar `author`. -/
def ppAuthor (m : Metadata) : Metadata :=
  match m.authors with
  | some l => { m with author := joinCommaSep (l.take 3) }
  | none => m

/-- Lines 231-235: truncate `categories` and `subjects` to at most 5. -/
def ppTruncate (m : Metadata) : Metadata :=
  { m with categories := m.categories.take 5, subjects := m.subjects.take 5 }

/-- Lines 238-239: round a truthy `average_rating` to one decimal place. -/
def ppRating (m : Metadata) : Metadata :=
  match m.average_rating with
  | some r => if r ≠ 0 then { m with average_rating := some (roundRating r) } else m
  | none => m

/-- The clean-up block of `get_book_metadata` (lines 228-239). -/
def postProcessMetadata (m : Metadata) : Metadata :=
  ppRating (ppTruncate (ppAuthor m))

/-- `BookMetadataService.get_book_metadata` (lines 177-242), with the two
black-box lookups passed in as their (possibly absent) results: initialize,
overlay Google Books if present, overlay Open Library if present, clean up. -/
def get_book_metadata (title : String) (author : Option String)
    (google : Option GoogleBooksResult) (openlib : Option OpenLibraryResult) :
    Metadata :=
  let m0 := initMetadata title author
  let m1 := match google with
    | some g => applyGoogle m0 g
    | none => m0
  let m2 := match openlib with
    | some o => applyOpenLibrary m1 o
    | none => m1
  postProcessMetadata m2

/-! ## RecommendationMatcher preference filter
(`analyze_books_with_preferences`, `backend/api/analyze.py` lines 496-531) -/

/-- A detected book as seen by the preference filter: the three genre
fields read at lines 502-504 (plus the title, for readability of
witnesses). -/
structure DetectedBook where
  title : String
  primary_genre : String
  secondary_genre : String
  tertiary_genre : String
deriving DecidableEq, Repr

/-- The per-pair genre test of lines 513-515: case-insensitive substring in
either direction, or case-insensitive equality. -/
def genreMatch (user_genre book_genre : String) : Bool :=
  strContains (lowerStr book_genre) (lowerStr user_genre) ||
  strContains (lowerStr user_genre) (lowerStr book_genre) ||
  lowerStr user_genre == lowerStr book_genre

/-- `book_genres` of line 507: the stripped primary/secondary/tertiary
genres, keeping only the non-empty ones. -/
def bookGenres (b : DetectedBook) : List String :=
  [trimStr b.primary_genre, trimStr b.secondary_genre,
   trimStr b.tertiary_genre].filter (fun g => g ≠ "")

/-- `matching_genres` of lines 508-517: each user-selected genre is appended
at most once (the inner loop breaks at the first matching book genre), so the
list is exactly the user genres that match some book genre, in selection
order. -/
def matchingGenres (selected : List String) (b : DetectedBook) : List String :=
  selected.filter (fun u => (bookGenres b).any (fun g => genreMatch u g))

/-- A filtered book together with its `match_score` (line 523). -/
structure ScoredBook where
  book : DetectedBook
  match_score : ℚ
deriving DecidableEq, Repr

/-- The filter loop of lines 500-528: a book is kept only when
`matching_genres` is non-empty, and then scored with
`len(matching_genres) / len(selected_genres)`. -/
def scoreBooks (books : List DetectedBook) (selected : List String) :
    List ScoredBook :=
  books.filterMap (fun b =>
    if matchingGenres selected b ≠ [] then
      some ⟨b, ((matchingGenres selected b).length : ℚ) / (selected.length : ℚ)⟩
    else none)

/-- Stable insertion into a descending-by-score list: the inserted element
(earlier in encounter order than everything already present) goes before any
element of equal score. -/
def insertDesc (x : ScoredBook) : List ScoredBook → List ScoredBook
  | [] => [x]
  | y :: ys =>
    if y.match_score ≤ x.match_score then x :: y :: ys
    else y :: insertDesc x ys

/-- Stable sort, descending by `match_score`.  Python's
`filtered_books.sort(key=..., reverse=True)` (line 531) is a stable
descending sort; this insertion sort computes exactly that order. -/
def sortByScoreDesc : List ScoredBook → List ScoredBook
  | [] => []
  | x :: xs => insertDesc x (sortByScoreDesc xs)

/-- The preference-filtering core of `analyze_books_with_preferences`
(lines 496-531): score and filter the detected books, then sort descending
by match score (stably). -/
def analyze_books_with_preferences (books : List DetectedBook)
    (selected : List String) : List ScoredBook :=
  sortByScoreDesc (scoreBooks books selected)

/-! ## GeometryNormalizer (`BookSpineDetector.detect_books`,
`backend/book_detector/book_detector.py` lines 289-336)

The geometry is modelled over `ℚ`, with the cosine and sine of the rotation
angle passed symbolically (the code computes them inside
`cv2.getRotationMatrix2D`); for the axis-aligned scenario used in the
counterexample the angle is `0`, so the cosine and sine are the exact
rationals `1` and `0`. -/

/-- A 2x3 affine transform `[[a, b, tx], [c, d, ty]]`, as returned by
`cv2.getRotationMatrix2D`. -/
structure AffineRows where
  a : ℚ
  b : ℚ
  tx : ℚ
  c : ℚ
  d : ℚ
  ty : ℚ
deriving DecidableEq, Repr

/-- Application of the affine transform to a point (what `cv2.transform`
does to each corner at line 322, and what `cv2.warpAffine` does to each
source pixel position at line 319). -/
def applyAffine (M : AffineRows) (p : ℚ × ℚ) : ℚ × ℚ :=
  (M.a * p.1 + M.b * p.2 + M.tx, M.c * p.1 + M.d * p.2 + M.ty)

/-- `cv2.getRotationMatrix2D(center, angle, 1.0)` (line 306) with the
cosine/sine of `angle` passed in: rotation about `center` leaving `center`
fixed. -/
def getRotationMatrix2D (center : ℚ × ℚ) (cosA sinA : ℚ) : AffineRows :=
  { a := cosA, b := sinA,
    tx := (1 - cosA) * center.1 - sinA * center.2,
    c := -sinA, d := cosA,
    ty := sinA * center.1 + (1 - cosA) * center.2 }

/-- `new_width` of lines 309-311: the canvas width the code computes, from
the *detected region's* `width` and `height` (corner distances, lines
297-298), truncated to an integer (`int(...)`; the operand is non-negative,
so truncation is `⌊·⌋`). -/
def canvasWidth (width height cosA sinA : ℚ) : ℤ :=
  ⌊height * |sinA| + width * |cosA|⌋

/-- `new_height` of line 312. -/
def canvasHeight (width height cosA sinA : ℚ) : ℤ :=
  ⌊height * |cosA| + width * |sinA|⌋

/-- Lines 314-316: the rotation matrix with its translation column shifted
by `(new_width/2 - center_x, new_height/2 - center_y)`. -/
def adjustedRotationMatrix (center : ℚ × ℚ) (cosA sinA : ℚ)
    (width height : ℚ) : AffineRows :=
  let M := getRotationMatrix2D center cosA sinA
  { M with
    tx := M.tx + (canvasWidth width height cosA sinA : ℚ) / 2 - center.1,
    ty := M.ty + (canvasHeight width height cosA sinA : ℚ) / 2 - center.2 }

/-- Modelled from the spec (§4.1 step 5, the sentence behind C7): the output
canvas size "needed to contain the whole rotated source image without
clipping", i.e. the bounding-box-after-rotation formula applied to the
*whole source image's* dimensions.  This is the comparison definition for
the refinement claim C7; the code's canvas is `canvasWidth`/`canvasHeight`
applied to the region's dimensions instead. -/
def specCanvasWidth (imgW imgH cosA sinA : ℚ) : ℤ :=
  ⌊imgH * |sinA| + imgW * |cosA|⌋

/-- Spec comparison definition, height component; see `specCanvasWidth`. -/
def specCanvasHeight (imgW imgH cosA sinA : ℚ) : ℤ :=
  ⌊imgH * |cosA| + imgW * |sinA|⌋

/-- Centroid of four corner points (line 294, `np.mean(points, axis=0)`). -/
def quadCentroid (p0 p1 p2 p3 : ℚ × ℚ) : ℚ × ℚ :=
  ((p0.1 + p1.1 + p2.1 + p3.1) / 4, (p0.2 + p1.2 + p2.2 + p3.2) / 4)

/-- Squared distance between two points; `width` (line 297) is
`√(sqDist p0 p1)` and `height` (line 298) is `√(sqDist p1 p2)`. -/
def sqDist (p q : ℚ × ℚ) : ℚ :=
  (p.1 - q.1) ^ 2 + (p.2 - q.2) ^ 2

/-! ## Helper lemmas -/

/-- Unfolding of `validate_extraction` into the conjunction of its six
checks. -/
theorem validate_extraction_iff (r : BookInfo) :
    validate_extraction r = true ↔
      (strContains r.uncertainty_notes "Need Validation" = false ∧
       (∀ t ∈ high_risk_terms, strContains (lowerStr r.uncertainty_notes) t = false) ∧
       20 ≤ r.reasoning.length ∧
       trimStr r.title ≠ "" ∧
       trimStr r.genre ≠ "" ∧
       (∀ t ∈ placeholder_terms, strContains (lowerStr r.title) t = false)) := by
  unfold validate_extraction
  split_ifs with h1 h2 h3 h4 h5 h6 <;>
    simp_all [List.any_eq_true, not_lt, Bool.not_eq_true]

/-- A list contains its own suffix as a sublist of contiguous characters. -/
theorem listContains_append_right (a b : List Char) :
    listContains (a ++ b) b = true := by
  induction a with
  | nil =>
    cases b with
    | nil => rfl
    | cons c t =>
      simp [listContains, List.isPrefixOf_iff_prefix]
  | cons c t ih =>
    simp [listContains, ih]

/-- Every branch of the line loop keeps `genre` equal to `primary_genre`. -/
theorem parseLine_genre_eq (b : BookInfo) (line : String)
    (h : b.genre = b.primary_genre) :
    (parseLine b line).genre = (parseLine b line).primary_genre := by
  dsimp only [parseLine]
  split_ifs <;> simp_all

/-- The parser maintains `genre = primary_genre` across all lines. -/
theorem parseLines_genre_eq (lines : List String) (b : BookInfo)
    (h : b.genre = b.primary_genre) :
    (parseLines lines b).genre = (parseLines lines b).primary_genre := by
  induction lines generalizing b with
  | nil => simpa [parseLines]
  | cons l ls ih =>
    simp only [parseLines, List.foldl_cons] at *
    exact ih _ (parseLine_genre_eq b l h)

/-- The cover special case written as a single record update. -/
theorem olCoverSpecial_eq (m : Metadata) (o : OpenLibraryResult) :
    olCoverSpecial m o =
      { m with
        cover_url := if !truthyOptStr m.cover_url && truthyOptStr o.cover_url
          then o.cover_url else m.cover_url,
        source := if !truthyOptStr m.cover_url && truthyOptStr o.cover_url
          then "open_library" else m.source } := by
  unfold olCoverSpecial
  split_ifs <;> rfl

/-- The clean-up block written as a single record update. -/
theorem postProcess_eq (m : Metadata) :
    postProcessMetadata m =
      { m with
        author := match m.authors with
          | some l => joinCommaSep (l.take 3)
          | none => m.author,
        categories := m.categories.take 5,
        subjects := m.subjects.take 5,
        average_rating := match m.average_rating with
          | some r => if r ≠ 0 then some (roundRating r) else some r
          | none => none } := by
  unfold postProcessMetadata ppAuthor ppTruncate ppRating
  rcases ha : m.authors with _ | l <;>
    rcases hr : m.average_rating with _ | r <;>
      simp [ha, hr] <;> split_ifs <;> rfl

/-- Membership in `insertDesc` is membership in the old list or being the
inserted element. -/
theorem mem_insertDesc {a x : ScoredBook} {l : List ScoredBook} :
    a ∈ insertDesc x l ↔ a = x ∨ a ∈ l := by
  induction l with
  | nil => simp [insertDesc]
  | cons y ys ih =>
    rw [insertDesc]
    split_ifs with h
    · simp [List.mem_cons]
    · simp only [List.mem_cons, ih]
      tauto

/-- `insertDesc` permutes the element onto the list. -/
theorem insertDesc_perm (x : ScoredBook) (l : List ScoredBook) :
    List.Perm (insertDesc x l) (x :: l) := by
  induction l with
  | nil => rfl
  | cons y ys ih =>
    rw [insertDesc]
    split_ifs with h
    · rfl
    · exact List.Perm.trans (List.Perm.cons y ih) (List.Perm.swap x y ys)

/-- Inserting into a descending list keeps it descending. -/
theorem insertDesc_pairwise {x : ScoredBook} {l : List ScoredBook}
    (h : l.Pairwise fun a b => b.match_score ≤ a.match_score) :
    (insertDesc x l).Pairwise fun a b => b.match_score ≤ a.match_score := by
  induction l with
  | nil => simp [insertDesc]
  | cons y ys ih =>
    rw [List.pairwise_cons] at h
    rw [insertDesc]
    split_ifs with hle
    · rw [List.pairwise_cons]
      refine ⟨?_, List.pairwise_cons.mpr h⟩
      intro z hz
      rcases List.mem_cons.mp hz with rfl | hz2
      · exact hle
      · exact le_trans (h.1 z hz2) hle
    · rw [List.pairwise_cons]
      refine ⟨?_, ih h.2⟩
      intro z hz
      rcases mem_insertDesc.mp hz with rfl | hz2
      · exact le_of_not_le hle
      · exact h.1 z hz2

/-- The sorted output is descending in `match_score`. -/
theorem sortByScoreDesc_pairwise (l : List ScoredBook) :
    (sortByScoreDesc l).Pairwise fun a b => b.match_score ≤ a.match_score := by
  induction l with
  | nil => simp [sortByScoreDesc]
  | cons x xs ih => exact insertDesc_pairwise ih

/-- The sorted output is a permutation of the input. -/
theorem sortByScoreDesc_perm (l : List ScoredBook) :
    List.Perm (sortByScoreDesc l) l := by
  induction l with
  | nil => rfl
  | cons x xs ih =>
    exact List.Perm.trans (insertDesc_perm x (sortByScoreDesc xs)) (List.Perm.cons x ih)

/-- Stability of the insertion step: restricted to any fixed score, inserting
into a descending list puts the (earlier-in-encounter-order) element first. -/
theorem filter_insertDesc (q : ℚ) (x : ScoredBook) (l : List ScoredBook)
    (hsorted : l.Pairwise fun a b => b.match_score ≤ a.match_score) :
    (insertDesc x l).filter (fun e => decide (e.match_score = q)) =
      if x.match_score = q then
        x :: l.filter (fun e => decide (e.match_score = q))
      else l.filter (fun e => decide (e.match_score = q)) := by
  induction l with
  | nil =>
    rw [insertDesc]
    by_cases h : x.match_score = q <;> simp [List.filter, h]
  | cons y ys ih =>
    rw [List.pairwise_cons] at hsorted
    rw [insertDesc]
    by_cases hle : y.match_score ≤ x.match_score
    · rw [if_pos hle]
      by_cases hx : x.match_score = q <;> simp [List.filter_cons, hx]
    · rw [if_neg hle]
      have hyx : x.match_score < y.match_score := lt_of_not_le hle
      rw [List.filter_cons, ih hsorted.2, List.filter_cons]
      by_cases hx : x.match_score = q
      · have hyq : ¬ (y.match_score = q) := by
          intro hcontra
          rw [hx, hcontra] at hyx
          exact lt_irrefl q hyx
        simp [hx, hyq]
      · by_cases hyq : y.match_score = q <;> simp [hx, hyq]

/-- Stability of the sort: the elements holding any fixed score appear in the
sorted output exactly in their input (encounter) order. -/
theorem filter_sortByScoreDesc (q : ℚ) (l : List ScoredBook) :
    (sortByScoreDesc l).filter (fun e => decide (e.match_score = q)) =
      l.filter (fun e => decide (e.match_score = q)) := by
  induction l with
  | nil => rfl
  | cons x xs ih =>
    have h1 : sortByScoreDesc (x :: xs) = insertDesc x (sortByScoreDesc xs) := rfl
    rw [h1, filter_insertDesc q x (sortByScoreDesc xs) (sortByScoreDesc_pairwise xs),
      List.filter_cons, ih]
    by_cases hx : x.match_score = q <;> simp [hx]

/-- Shape of the members of the score/filter stage: a scored entry comes from
a detected book with a non-empty match set and carries the quotient score. -/
theorem mem_scoreBooks {e : ScoredBook} {books : List DetectedBook}
    {selected : List String} :
    e ∈ scoreBooks books selected ↔
      ∃ b ∈ books, matchingGenres selected b ≠ [] ∧
        e = ⟨b, ((matchingGenres selected b).length : ℚ) / (selected.length : ℚ)⟩ := by
  unfold scoreBooks
  rw [List.mem_filterMap]
  constructor
  · rintro ⟨b, hb, hf⟩
    by_cases h : matchingGenres selected b ≠ []
    · rw [if_pos h] at hf
      exact ⟨b, hb, h, (Option.some_inj.mp hf).symm⟩
    · rw [if_neg h] at hf
      cases hf
  · rintro ⟨b, hb, h, rfl⟩
    exact ⟨b, hb, by rw [if_pos h]⟩

/-! ## Claim theorems -/

/-- C1: for every parsed extraction record, `is_valid` is true iff the title
is non-empty after trimming, the primary genre is non-empty after trimming,
the reasoning has length at least 20, the uncertainty notes contain neither
the literal marker "Need Validation" nor (case-insensitively) any high-risk
phrase, and the title does not (case-insensitively) contain any placeholder
term. -/
theorem c1_is_valid_iff (input : RawResponse) :
    (parse_openai_response input).isValid = true ↔
      (trimStr (parse_openai_response input).title ≠ "" ∧
       trimStr (parse_openai_response input).primary_genre ≠ "" ∧
       20 ≤ (parse_openai_response input).reasoning.length ∧
       strContains (parse_openai_response input).uncertainty_notes
         "Need Validation" = false ∧
       (∀ t ∈ high_risk_terms,
         strContains (lowerStr (parse_openai_response input).uncertainty_notes) t
           = false) ∧
       (∀ t ∈ placeholder_terms,
         strContains (lowerStr (parse_openai_response input).title) t = false)) := by
  have h1 : (parse_openai_response input).isValid
      = validate_extraction (parse_openai_response input) := by
    cases input <;> rfl
  have h2 : (parse_openai_response input).genre
      = (parse_openai_response input).primary_genre := by
    cases input with
    | ok t => exact parseLines_genre_eq (strSplit t '\n') initBookInfo rfl
    | exn e => rfl
  rw [h1, validate_extraction_iff, ← h2]
  tauto

/-- C1 witness: the six validity conditions hold on the well-formed sample
response, so its record is valid. -/
theorem c1_is_valid_iff_witness :
    (parse_openai_response (.ok ("TITLE: Dune\nAUTHOR: Herbert\nGENRE: [Science Fiction, Adventure, Classic]\nSPINE_APPEARANCE: dark cover\nREASONING: Bold title text with small author name below, consistent with genre cues.\nUNCERTAINTY_NOTES: None"))).isValid = true :=
  (c1_is_valid_iff (.ok ("TITLE: Dune\nAUTHOR: Herbert\nGENRE: [Science Fiction, Adventure, Classic]\nSPINE_APPEARANCE: dark cover\nREASONING: Bold title text with small author name below, consistent with genre cues.\nUNCERTAINTY_NOTES: None"))).mpr
    ⟨by decide, by decide, by decide, by decide, by decide, by decide⟩

/-- C2: for every detected-book list and non-empty user genre selection, each
record kept by the preference filter is scored with the number of matching
user genres (each counted at most once) divided by the number of selected
genres, zero-match books are excluded, matching books are included, and the
output is the stable descending sort of the filtered list (descending by
score; for any fixed score the encounter order is preserved). -/
theorem c2_preference_filter (books : List DetectedBook) (selected : List String)
    (hne : selected ≠ []) :
    (∀ e ∈ analyze_books_with_preferences books selected,
        e.match_score
          = ((matchingGenres selected e.book).length : ℚ) / (selected.length : ℚ) ∧
        matchingGenres selected e.book ≠ []) ∧
    (∀ b ∈ books, matchingGenres selected b = [] →
        ∀ e ∈ analyze_books_with_preferences books selected, e.book ≠ b) ∧
    (∀ b ∈ books, matchingGenres selected b ≠ [] →
        (⟨b, ((matchingGenres selected b).length : ℚ) / (selected.length : ℚ)⟩ : ScoredBook)
          ∈ analyze_books_with_preferences books selected) ∧
    (analyze_books_with_preferences books selected).Pairwise
        (fun a b => b.match_score ≤ a.match_score) ∧
    (∀ q : ℚ, (analyze_books_with_preferences books selected).filter
          (fun e => decide (e.match_score = q))
        = (scoreBooks books selected).filter (fun e => decide (e.match_score = q))) := by
  refine ⟨?_, ?_, ?_, sortByScoreDesc_pairwise _, fun q => filter_sortByScoreDesc q _⟩
  · intro e he
    have he2 : e ∈ scoreBooks books selected :=
      ((sortByScoreDesc_perm _).mem_iff).mp he
    obtain ⟨b, hb, hmne, rfl⟩ := mem_scoreBooks.mp he2
    exact ⟨rfl, hmne⟩
  · intro b hb hempty e he hbe
    have he2 : e ∈ scoreBooks books selected :=
      ((sortByScoreDesc_perm _).mem_iff).mp he
    obtain ⟨b2, hb2, hmne, rfl⟩ := mem_scoreBooks.mp he2
    have hb2b : b2 = b := hbe
    rw [hb2b] at hmne
    exact hmne hempty
  · intro b hb hmne
    have hmem : (⟨b, ((matchingGenres selected b).length : ℚ)
          / (selected.length : ℚ)⟩ : ScoredBook) ∈ scoreBooks books selected :=
      mem_scoreBooks.mpr ⟨b, hb, hmne, rfl⟩
    exact ((sortByScoreDesc_perm _).mem_iff).mpr hmem

/-- C2 witness: the filter on a concrete three-book batch with two selected
genres produces a descending output. -/
theorem c2_preference_filter_witness :
    (analyze_books_with_preferences
        [⟨"B1", "Fantasy", "", ""⟩, ⟨"B2", "Romance", "", ""⟩, ⟨"B3", "Horror", "", ""⟩]
        ["Fantasy", "Romance"]).Pairwise
      (fun a b => b.match_score ≤ a.match_score) :=
  (c2_preference_filter
      [⟨"B1", "Fantasy", "", ""⟩, ⟨"B2", "Romance", "", ""⟩, ⟨"B3", "Horror", "", ""⟩]
      ["Fantasy", "Romance"] (by decide)).2.2.2.1

/-- C3 counterexample: Google Books returns a truthy 6-element `categories`
list, but the post-merge record holds only the first 5 entries, so the
post-merge value does not equal the value source A provided. -/
theorem c3_counterexample :
    (get_book_metadata "T" (some "A")
        (some { title := "T", authors := ["A"], published_date := "2001",
                description := "d", page_count := 100,
                categories := ["c1", "c2", "c3", "c4", "c5", "c6"], language := "en",
                isbn_10 := none, isbn_13 := none, google_books_id := "g1",
                cover_url := some "u", average_rating := none,
                ratings_count := 0 })
        none).categories = ["c1", "c2", "c3", "c4", "c5"] ∧
    (["c1", "c2", "c3", "c4", "c5"] : List String) ≠ ["c1", "c2", "c3", "c4", "c5", "c6"] := by
  decide

/-- C3 (amended): whenever Google Books (source A) provides a truthy value
for a field, the post-merge value is derived from A's value alone and Open
Library (source B) never overwrites it — equal to A's value for title,
description, published date, page count, language, ISBNs, cover URL (with
`source = "google_books"`) and ratings count, while the clean-up step joins
the first 3 authors into `author`, truncates `categories` to 5, and rounds
`average_rating` to one decimal; when both sources are absent the output
record retains the initializer defaults (including `source = "unknown"`). -/
theorem c3_amended (title : String) (author : Option String)
    (g : GoogleBooksResult) (o : Option OpenLibraryResult) :
    ((get_book_metadata title author (some g) o).description = g.description) ∧
    ((get_book_metadata title author (some g) o).page_count = g.page_count) ∧
    ((get_book_metadata title author (some g) o).categories = g.categories.take 5) ∧
    ((get_book_metadata title author (some g) o).language = g.language) ∧
    ((get_book_metadata title author (some g) o).google_books_id = some g.google_books_id) ∧
    (g.title ≠ "" → (get_book_metadata title author (some g) o).title = g.title) ∧
    (g.authors ≠ [] →
      (get_book_metadata title author (some g) o).authors = some g.authors ∧
      (get_book_metadata title author (some g) o).author = joinCommaSep (g.authors.take 3)) ∧
    (g.published_date ≠ "" →
      (get_book_metadata title author (some g) o).published_date = g.published_date) ∧
    (∀ s, g.isbn_10 = some s → s ≠ "" →
      (get_book_metadata title author (some g) o).isbn_10 = some s) ∧
    (∀ s, g.isbn_13 = some s → s ≠ "" →
      (get_book_metadata title author (some g) o).isbn_13 = some s) ∧
    (∀ c, g.cover_url = some c → c ≠ "" →
      (get_book_metadata title author (some g) o).cover_url = some c ∧
      (get_book_metadata title author (some g) o).source = "google_books") ∧
    (∀ r, g.average_rating = some r → r ≠ 0 →
      (get_book_metadata title author (some g) o).average_rating = some (roundRating r)) ∧
    (g.average_rating ≠ none → g.ratings_count ≠ 0 →
      (get_book_metadata title author (some g) o).ratings_count = g.ratings_count) ∧
    (∀ t a, get_book_metadata t a none none = initMetadata t a) := by
  refine ⟨?_, ?_, ?_, ?_, ?_, ?_, ?_, ?_, ?_, ?_, ?_, ?_, ?_, ?_⟩
  · rcases o with _ | o <;>
      simp only [get_book_metadata, applyOpenLibrary, olCoverSpecial_eq, postProcess_eq,
        olFill, applyGoogle]
  · rcases o with _ | o <;>
      simp only [get_book_metadata, applyOpenLibrary, olCoverSpecial_eq, postProcess_eq,
        olFill, applyGoogle]
  · rcases o with _ | o <;>
      simp only [get_book_metadata, applyOpenLibrary, olCoverSpecial_eq, postProcess_eq,
        olFill, applyGoogle]
  · rcases o with _ | o <;>
      simp only [get_book_metadata, applyOpenLibrary, olCoverSpecial_eq, postProcess_eq,
        olFill, applyGoogle]
  · rcases o with _ | o <;>
      simp only [get_book_metadata, applyOpenLibrary, olCoverSpecial_eq, postProcess_eq,
        olFill, applyGoogle]
  · intro h
    rcases o with _ | o <;>
      (simp only [get_book_metadata, applyOpenLibrary, olCoverSpecial_eq, postProcess_eq,
        olFill, applyGoogle]
       try simp [h])
  · intro h
    rcases o with _ | o <;>
      (simp only [get_book_metadata, applyOpenLibrary, olCoverSpecial_eq, postProcess_eq,
        olFill, applyGoogle]
       simp [truthyOptList, h])
  · intro h
    rcases o with _ | o <;>
      (simp only [get_book_metadata, applyOpenLibrary, olCoverSpecial_eq, postProcess_eq,
        olFill, applyGoogle]
       try simp [h])
  · intro s hs hne
    rcases o with _ | o <;>
      (simp only [get_book_metadata, applyOpenLibrary, olCoverSpecial_eq, postProcess_eq,
        olFill, applyGoogle]
       simp [truthyOptStr, hs, hne])
  · intro s hs hne
    rcases o with _ | o <;>
      (simp only [get_book_metadata, applyOpenLibrary, olCoverSpecial_eq, postProcess_eq,
        olFill, applyGoogle]
       simp [truthyOptStr, hs, hne])
  · intro c hc hne
    rcases o with _ | o
    · simp only [get_book_metadata, applyOpenLibrary, olCoverSpecial_eq, postProcess_eq,
        olFill, applyGoogle]
      simp [truthyOptStr, hc, hne]
    · rcases hoc : o.cover_url with _ | c2 <;>
        (simp only [get_book_metadata, applyOpenLibrary, olCoverSpecial_eq, postProcess_eq,
          olFill, applyGoogle]
         simp [truthyOptStr, hc, hne, hoc])
  · intro r hr hne
    rcases o with _ | o
    · simp only [get_book_metadata, applyOpenLibrary, olCoverSpecial_eq, postProcess_eq,
        olFill, applyGoogle]
      simp [truthyOptRat, hr, hne]
    · rcases hor : o.average_rating with _ | r2 <;>
        (simp only [get_book_metadata, applyOpenLibrary, olCoverSpecial_eq, postProcess_eq,
          olFill, applyGoogle]
         simp [truthyOptRat, hr, hne, hor])
  · intro hr hne
    rcases hgr : g.average_rating with _ | r
    · exact absurd hgr hr
    · rcases o with _ | o
      · simp only [get_book_metadata, applyOpenLibrary, olCoverSpecial_eq, postProcess_eq,
          olFill, applyGoogle]
        simp [hgr, hne]
      · rcases hor : o.average_rating with _ | r2 <;>
          (simp only [get_book_metadata, applyOpenLibrary, olCoverSpecial_eq, postProcess_eq,
            olFill, applyGoogle]
           simp [hgr, hne, hor])
  · intro t a
    simp only [get_book_metadata, postProcess_eq, initMetadata]
    simp

/-- C3 witness: on a concrete pair of source results with every Google field
truthy, the merged record keeps all of source A's data. -/
theorem c3_amended_witness :
    (get_book_metadata "T" (some "A")
        (some ⟨"T", ["A"], "2001", "d", 7, ["c1", "c2"], "en", some "i10",
               some "i13", "gid", some "cu", some 4, 9⟩)
        (some ⟨"T2", ["B"], "1999", some "x10", some "x13", some 3, ["s1"],
               some "ocu", some 3, 5⟩)).title = "T" ∧
    (get_book_metadata "T" (some "A")
        (some ⟨"T", ["A"], "2001", "d", 7, ["c1", "c2"], "en", some "i10",
               some "i13", "gid", some "cu", some 4, 9⟩)
        (some ⟨"T2", ["B"], "1999", some "x10", some "x13", some 3, ["s1"],
               some "ocu", some 3, 5⟩)).author = joinCommaSep ["A"] ∧
    (get_book_metadata "T" (some "A")
        (some ⟨"T", ["A"], "2001", "d", 7, ["c1", "c2"], "en", some "i10",
               some "i13", "gid", some "cu", some 4, 9⟩)
        (some ⟨"T2", ["B"], "1999", some "x10", some "x13", some 3, ["s1"],
               some "ocu", some 3, 5⟩)).published_date = "2001" ∧
    (get_book_metadata "T" (some "A")
        (some ⟨"T", ["A"], "2001", "d", 7, ["c1", "c2"], "en", some "i10",
               some "i13", "gid", some "cu", some 4, 9⟩)
        (some ⟨"T2", ["B"], "1999", some "x10", some "x13", some 3, ["s1"],
               some "ocu", some 3, 5⟩)).isbn_10 = some "i10" ∧
    (get_book_metadata "T" (some "A")
        (some ⟨"T", ["A"], "2001", "d", 7, ["c1", "c2"], "en", some "i10",
               some "i13", "gid", some "cu", some 4, 9⟩)
        (some ⟨"T2", ["B"], "1999", some "x10", some "x13", some 3, ["s1"],
               some "ocu", some 3, 5⟩)).cover_url = some "cu" ∧
    (get_book_metadata "T" (some "A")
        (some ⟨"T", ["A"], "2001", "d", 7, ["c1", "c2"], "en", some "i10",
               some "i13", "gid", some "cu", some 4, 9⟩)
        (some ⟨"T2", ["B"], "1999", some "x10", some "x13", some 3, ["s1"],
               some "ocu", some 3, 5⟩)).source = "google_books" ∧
    (get_book_metadata "T" (some "A")
        (some ⟨"T", ["A"], "2001", "d", 7, ["c1", "c2"], "en", some "i10",
               some "i13", "gid", some "cu", some 4, 9⟩)
        (some ⟨"T2", ["B"], "1999", some "x10", some "x13", some 3, ["s1"],
               some "ocu", some 3, 5⟩)).average_rating = some (roundRating 4) ∧
    (get_book_metadata "T" (some "A")
        (some ⟨"T", ["A"], "2001", "d", 7, ["c1", "c2"], "en", some "i10",
               some "i13", "gid", some "cu", some 4, 9⟩)
        (some ⟨"T2", ["B"], "1999", some "x10", some "x13", some 3, ["s1"],
               some "ocu", some 3, 5⟩)).ratings_count = 9 := by
  obtain ⟨-, -, -, -, -, h6, h7, h8, h9, h10, h11, h12, h13, -⟩ :=
    c3_amended "T" (some "A")
      ⟨"T", ["A"], "2001", "d", 7, ["c1", "c2"], "en", some "i10",
       some "i13", "gid", some "cu", some 4, 9⟩
      (some ⟨"T2", ["B"], "1999", some "x10", some "x13", some 3, ["s1"],
             some "ocu", some 3, 5⟩)
  exact ⟨h6 (by decide), (h7 (by decide)).2, h8 (by decide),
    h9 "i10" rfl (by decide), (h11 "cu" rfl (by decide)).1,
    (h11 "cu" rfl (by decide)).2, h12 4 rfl (by decide),
    h13 (by decide) (by decide)⟩

/-- C4: when parsing raises, the exception does not propagate (the parser is
a total function of the failure), the error message is recorded verbatim into
`uncertainty_notes`, and the resulting record has `isValid = false`. -/
theorem c4_parse_exception (msg : String) :
    (parse_openai_response (.exn msg)).uncertainty_notes = "Parsing error: " ++ msg ∧
    strContains (parse_openai_response (.exn msg)).uncertainty_notes msg = true ∧
    (parse_openai_response (.exn msg)).isValid = false := by
  refine ⟨rfl, ?_, ?_⟩
  · exact listContains_append_right "Parsing error: ".data msg.data
  · rw [show (parse_openai_response (.exn msg)).isValid
        = validate_extraction (parse_openai_response (.exn msg)) from rfl]
    cases h : validate_extraction (parse_openai_response (.exn msg)) with
    | false => rfl
    | true =>
      exfalso
      have hlen := ((validate_extraction_iff _).mp h).2.2.1
      have hr : (parse_openai_response (.exn msg)).reasoning = "" := rfl
      rw [hr] at hlen
      exact absurd hlen (by decide)

/-- C5 counterexample: when the remote classification call raises, the
produced record takes its genre from the keyword fallback but carries
`genre_confidence = "high"` and no attached error — not the
`genre_confidence = "low"` plus diagnostic that the claim asserts. -/
theorem c5_counterexample :
    ((categorize_books [⟨"Dragon Magic", "A. Author"⟩]
        (fun _ => .exn "Request timed out")).map
          (fun cb => (cb.genre, cb.genre_confidence, cb.genre_error)))
      = [(fallback_categorization "Dragon Magic" "A. Author", "high", none)] ∧
    fallback_categorization "Dragon Magic" "A. Author" = "Fantasy" ∧
    ("high" : String) ≠ "low" := by
  decide

/-- C5 (amended): every record produced by `categorize_books` carries
`genre_confidence = "high"` and no attached error, because
`_categorize_single_book` catches remote-call exceptions internally; a book
whose remote call raises still gets its genre from the deterministic keyword
fallback, and a book whose remote call succeeds gets the mapped remote
genre. -/
theorem c5_amended (books : List BookTA) (remote : BookTA → RemoteOutcome) :
    (∀ cb ∈ categorize_books books remote,
        cb.genre_confidence = "high" ∧ cb.genre_error = none) ∧
    (∀ b ∈ books, ∀ e, remote b = .exn e → b.title ≠ "" →
        { book := b, genre := fallback_categorization b.title b.author,
          genre_confidence := "high", genre_error := none }
          ∈ categorize_books books remote) ∧
    (∀ b ∈ books, ∀ c, remote b = .ok c → b.title ≠ "" →
        { book := b, genre := validate_and_map_genre (trimStr c),
          genre_confidence := "high", genre_error := none }
          ∈ categorize_books books remote) := by
  refine ⟨?_, ?_, ?_⟩
  · intro cb hcb
    simp only [categorize_books, List.mem_map] at hcb
    obtain ⟨b, _, rfl⟩ := hcb
    exact ⟨rfl, rfl⟩
  · intro b hb e he ht
    simp only [categorize_books, List.mem_map]
    exact ⟨b, hb, by simp [categorize_single_book, he, ht]⟩
  · intro b hb c hc ht
    simp only [categorize_books, List.mem_map]
    exact ⟨b, hb, by simp [categorize_single_book, hc, ht]⟩

/-- C5 witness: a concrete book whose remote call raises is categorized by
the keyword fallback, with high confidence and no error recorded. -/
theorem c5_amended_witness :
    { book := ⟨"Space War", "B"⟩,
      genre := fallback_categorization "Space War" "B",
      genre_confidence := "high", genre_error := none }
      ∈ categorize_books [⟨"Space War", "B"⟩] (fun _ => .exn "timeout") :=
  (c5_amended [⟨"Space War", "B"⟩] (fun _ => .exn "timeout")).2.1
    ⟨"Space War", "B"⟩ (by decide) "timeout" rfl (by decide)

/-- C6 counterexample: source A (Google Books) provides no cover and source B
(Open Library) provides one; the merged record takes B's cover URL, yet
`source` stays `"google_books"` — it is never updated to `"open_library"`,
because the gap-fill loop copies B's cover before the special case runs. -/
theorem c6_counterexample :
    (get_book_metadata "T" (some "A")
        (some ⟨"T", ["A"], "2001", "d", 10, ["c"], "en", none, none, "g1",
               none, none, 0⟩)
        (some ⟨"T", ["A"], "2001", none, none, some 7, ["s"], some "olcover",
               none, 0⟩)).cover_url = some "olcover" ∧
    (get_book_metadata "T" (some "A")
        (some ⟨"T", ["A"], "2001", "d", 10, ["c"], "en", none, none, "g1",
               none, none, 0⟩)
        (some ⟨"T", ["A"], "2001", none, none, some 7, ["s"], some "olcover",
               none, 0⟩)).source = "google_books" ∧
    ("google_books" : String) ≠ "open_library" := by
  decide

/-- C6 (amended): whenever source A provides no cover URL and source B
provides one, the merged record's cover URL is B's value, but the `source`
field is not updated: it keeps the value set before the overlay
(`"google_books"` when A responded, else `"unknown"`), never
`"open_library"`. -/
theorem c6_amended (title : String) (author : Option String)
    (g : Option GoogleBooksResult) (o : OpenLibraryResult) (c : String)
    (hg : ∀ g0, g = some g0 → g0.cover_url = none)
    (ho : o.cover_url = some c) (hc : c ≠ "") :
    (get_book_metadata title author g (some o)).cover_url = some c ∧
    (get_book_metadata title author g (some o)).source
      = (match g with | some _ => "google_books" | none => "unknown") ∧
    (get_book_metadata title author g (some o)).source ≠ "open_library" := by
  rcases g with _ | g0
  · have hcov2 : (get_book_metadata title author none (some o)).cover_url = some c := by
      simp only [get_book_metadata, applyOpenLibrary, olCoverSpecial_eq, postProcess_eq,
        olFill, initMetadata]
      simp [truthyOptStr, ho, hc]
    have hsrc : (get_book_metadata title author none (some o)).source = "unknown" := by
      simp only [get_book_metadata, applyOpenLibrary, olCoverSpecial_eq, postProcess_eq,
        olFill, initMetadata]
      simp [truthyOptStr, ho, hc]
    exact ⟨hcov2, hsrc, by rw [hsrc]; decide⟩
  · have h0 := hg g0 rfl
    have hcov2 : (get_book_metadata title author (some g0) (some o)).cover_url = some c := by
      simp only [get_book_metadata, applyOpenLibrary, olCoverSpecial_eq, postProcess_eq,
        olFill, applyGoogle, initMetadata]
      simp [truthyOptStr, ho, hc, h0]
    have hsrc : (get_book_metadata title author (some g0) (some o)).source = "google_books" := by
      simp only [get_book_metadata, applyOpenLibrary, olCoverSpecial_eq, postProcess_eq,
        olFill, applyGoogle, initMetadata]
      simp [truthyOptStr, ho, hc, h0]
    exact ⟨hcov2, hsrc, by rw [hsrc]; decide⟩

/-- C6 witness: a concrete merge in which A has no cover and B supplies one
keeps `source` distinct from `"open_library"`. -/
theorem c6_amended_witness :
    (get_book_metadata "T" (some "A")
        (some ⟨"T", ["A"], "2001", "d", 10, ["c"], "en", none, none, "g1",
               none, none, 0⟩)
        (some ⟨"T", ["A"], "2001", none, none, some 7, ["s"], some "olc2",
               none, 0⟩)).cover_url = some "olc2" ∧
    (get_book_metadata "T" (some "A")
        (some ⟨"T", ["A"], "2001", "d", 10, ["c"], "en", none, none, "g1",
               none, none, 0⟩)
        (some ⟨"T", ["A"], "2001", none, none, some 7, ["s"], some "olc2",
               none, 0⟩)).source ≠ "open_library" := by
  have h := c6_amended "T" (some "A")
    (some ⟨"T", ["A"], "2001", "d", 10, ["c"], "en", none, none, "g1",
           none, none, 0⟩)
    ⟨"T", ["A"], "2001", none, none, some 7, ["s"], some "olc2", none, 0⟩
    "olc2" (by intro g0 hg0; cases hg0; rfl) rfl (by decide)
  exact ⟨h.1, h.2.2⟩

/-- C7 counterexample: on the axis-aligned scenario (region corners
`(0,0), (100,0), (100,300), (0,300)` on a 400x400 image; angle `0`, so
cosine `1` and sine `0`), the code sizes the warp canvas from the *region's*
width 100 and height 300, giving a 100x300 canvas, while the spec's formula
applied to the whole source image gives 400x400; the transform maps the
source-image point `(399, 399)` to `(399, 399)`, outside the code's canvas,
so the entire rotated source image is not contained. -/
theorem c7_counterexample :
    sqDist (0, 0) (100, 0) = 100 ^ 2 ∧
    sqDist (100, 0) (100, 300) = 300 ^ 2 ∧
    quadCentroid (0, 0) (100, 0) (100, 300) (0, 300) = (50, 150) ∧
    canvasWidth 100 300 1 0 = 100 ∧
    canvasHeight 100 300 1 0 = 300 ∧
    specCanvasWidth 400 400 1 0 = 400 ∧
    specCanvasHeight 400 400 1 0 = 400 ∧
    canvasWidth 100 300 1 0 ≠ specCanvasWidth 400 400 1 0 ∧
    applyAffine (adjustedRotationMatrix (50, 150) 1 0 100 300) (399, 399)
      = (399, 399) ∧
    ¬ ((applyAffine (adjustedRotationMatrix (50, 150) 1 0 100 300) (399, 399)).1
        < (canvasWidth 100 300 1 0 : ℚ)) := by
  norm_num [sqDist, quadCentroid, canvasWidth, canvasHeight, specCanvasWidth,
    specCanvasHeight, applyAffine, adjustedRotationMatrix, getRotationMatrix2D,
    Prod.ext_iff]

/-- C7 (amended): the warp canvas is sized by the bounding-box-after-rotation
formula applied to the detected region's width and height (the corner
distances), not to the whole source image's dimensions, and the translation
adjustment makes the transform map the region's centroid to the canvas
center (the un-adjusted rotation fixes the centroid). -/
theorem c7_amended (width height cx cy cosA sinA : ℚ) :
    applyAffine (getRotationMatrix2D (cx, cy) cosA sinA) (cx, cy) = (cx, cy) ∧
    applyAffine (adjustedRotationMatrix (cx, cy) cosA sinA width height) (cx, cy)
      = ((canvasWidth width height cosA sinA : ℚ) / 2,
         (canvasHeight width height cosA sinA : ℚ) / 2) ∧
    canvasWidth width height cosA sinA = ⌊height * |sinA| + width * |cosA|⌋ ∧
    canvasHeight width height cosA sinA = ⌊height * |cosA| + width * |sinA|⌋ := by
  refine ⟨?_, ?_, rfl, rfl⟩ <;>
    (simp only [applyAffine, getRotationMatrix2D, adjustedRotationMatrix, Prod.mk.injEq]
     constructor <;> ring)

/-- C8: under the literal case-insensitive substring/equality rule, the book
genre "Science Fiction" does not match the user preference "Sci-Fi" (neither
lower-cased string is a substring of the other and they are unequal), so a
book whose only genre is "Science Fiction" has zero matches against
`["Sci-Fi", "Romance"]` and is excluded from the filtered output. -/
theorem c8_scifi_literal_mismatch :
    strContains (lowerStr "Science Fiction") (lowerStr "Sci-Fi") = false ∧
    strContains (lowerStr "Sci-Fi") (lowerStr "Science Fiction") = false ∧
    lowerStr "Sci-Fi" ≠ lowerStr "Science Fiction" ∧
    genreMatch "Sci-Fi" "Science Fiction" = false ∧
    genreMatch "Romance" "Science Fiction" = false ∧
    matchingGenres ["Sci-Fi", "Romance"] ⟨"X", "Science Fiction", "", ""⟩ = [] ∧
    analyze_books_with_preferences [⟨"X", "Science Fiction", "", ""⟩]
      ["Sci-Fi", "Romance"] = [] := by
  decide

/-- C9: the genre mapping is idempotent on the 15 canonical names — an input
that case-insensitively equals a canonical name maps to that canonical name
(so a canonical name maps to itself unchanged) — and an input that matches no
canonical name exactly and contains no synonym-table key as a substring maps
to "Fiction". -/
theorem c9_genre_mapping (input : String) :
    (∀ g ∈ predefined_genres, lowerStr input = lowerStr g →
       validate_and_map_genre input = g) ∧
    ((∀ g ∈ predefined_genres, lowerStr g ≠ trimStr (lowerStr input)) →
     (∀ p ∈ genre_mapping, strContains (trimStr (lowerStr input)) p.1 = false) →
     validate_and_map_genre input = "Fiction") := by
  constructor
  · intro g hg h
    simp only [predefined_genres, List.mem_cons, List.not_mem_nil, or_false] at hg
    rcases hg with rfl|rfl|rfl|rfl|rfl|rfl|rfl|rfl|rfl|rfl|rfl|rfl|rfl|rfl|rfl <;>
      (unfold validate_and_map_genre; rw [h]; decide)
  · intro h1 h2
    have e1 : predefined_genres.find?
        (fun g => lowerStr g == trimStr (lowerStr input)) = none := by
      rw [List.find?_eq_none]
      intro g hg
      simpa using h1 g hg
    have e2 : genre_mapping.find?
        (fun p => strContains (trimStr (lowerStr input)) p.1) = none := by
      rw [List.find?_eq_none]
      intro p hp
      simpa using h2 p hp
    unfold validate_and_map_genre
    rw [e1, e2]

/-- C9 witness: an upper-cased canonical name maps to the canonical form, and
a string hitting neither the canonical list nor the synonym table maps to
"Fiction". -/
theorem c9_genre_mapping_witness :
    validate_and_map_genre "SCIENCE FICTION" = "Science Fiction" ∧
    validate_and_map_genre "zzz" = "Fiction" :=
  ⟨(c9_genre_mapping "SCIENCE FICTION").1 "Science Fiction" (by decide) (by decide),
   (c9_genre_mapping "zzz").2 (by decide) (by decide)⟩

/-- C10: the match-score division never divides by zero — every record in the
filtered output was admitted only because at least one selected genre
matched, which forces the selection to be non-empty and puts its score in
`(0, 1]` — and an empty selection yields an empty filtered list rather than
an error. -/
theorem c10_no_division_by_zero (books : List DetectedBook) (selected : List String) :
    (∀ e ∈ analyze_books_with_preferences books selected,
        selected ≠ [] ∧ 0 < e.match_score ∧ e.match_score ≤ 1) ∧
    (selected = [] → analyze_books_with_preferences books selected = []) := by
  constructor
  · intro e he
    have he2 : e ∈ scoreBooks books selected :=
      ((sortByScoreDesc_perm _).mem_iff).mp he
    obtain ⟨b, hb, hmne, rfl⟩ := mem_scoreBooks.mp he2
    have hk : 0 < (matchingGenres selected b).length := List.length_pos.mpr hmne
    have hkn : (matchingGenres selected b).length ≤ selected.length :=
      List.length_filter_le _ _
    have hn : 0 < selected.length := lt_of_lt_of_le hk hkn
    refine ⟨?_, ?_, ?_⟩
    · intro h0
      rw [h0] at hn
      simp at hn
    · exact div_pos (by exact_mod_cast hk) (by exact_mod_cast hn)
    · rw [div_le_one (by exact_mod_cast hn)]
      exact_mod_cast hkn
  · intro h0
    subst h0
    have hs : scoreBooks books [] = [] := by
      unfold scoreBooks
      rw [List.filterMap_eq_nil_iff]
      intro b hb
      simp [matchingGenres]
    rw [analyze_books_with_preferences, hs]
    rfl

/-- C10 witness: on a concrete matching book the score is strictly positive
and at most one, and an empty selection filters everything out. -/
theorem c10_no_division_by_zero_witness :
    ((["Fantasy"] : List String) ≠ [] ∧
      0 < ((matchingGenres ["Fantasy"] ⟨"B", "Fantasy", "", ""⟩).length : ℚ)
          / ((["Fantasy"] : List String).length : ℚ) ∧
      ((matchingGenres ["Fantasy"] ⟨"B", "Fantasy", "", ""⟩).length : ℚ)
          / ((["Fantasy"] : List String).length : ℚ) ≤ 1) ∧
    analyze_books_with_preferences [⟨"B", "Fantasy", "", ""⟩] [] = [] :=
  ⟨(c10_no_division_by_zero [⟨"B", "Fantasy", "", ""⟩] ["Fantasy"]).1
      ⟨⟨"B", "Fantasy", "", ""⟩,
        ((matchingGenres ["Fantasy"] ⟨"B", "Fantasy", "", ""⟩).length : ℚ)
          / ((["Fantasy"] : List String).length : ℚ)⟩
      (List.mem_singleton.mpr rfl),
   (c10_no_division_by_zero [⟨"B", "Fantasy", "", ""⟩] []).2 rfl⟩
